import Mathlib

/-!
Shallow embedding of `thor/orbits/propagate/propagate.py` (`propagateOrbits`),
the propagation dispatcher of the THOR package, together with models of its
collaborators that live outside this file's source tree.  Floating-point
quantities are embedded as exact rationals; numpy arrays and pandas DataFrames
become Lean lists and a small table structure carrying its column labels.
-/

namespace Thor

/-- A 6-component cartesian state vector (position and velocity), one row of
the `orbits` ndarray. -/
structure StateVector where
  x : ℚ
  y : ℚ
  z : ℚ
  vx : ℚ
  vy : ℚ
  vz : ℚ
deriving DecidableEq, Inhabited

/-- One entry of an `astropy.time.Time` collection: the same instant rendered
as a Modified Julian Date in the TDB and the TT time scales (`t.tdb.mjd`,
`t.tt.mjd`). -/
structure Epoch where
  tdb : ℚ
  tt : ℚ
deriving DecidableEq, Inhabited

/-- An argument that is either a well-formed time collection or some other
object; `_checkTime` rejects the latter. -/
inductive TimeArg where
  | valid : List Epoch → TimeArg
  | invalid : TimeArg
deriving DecidableEq, Inhabited

/-- The error taxonomy of the dispatcher: `invalidTimeInput` is the
`_checkTime` failure, `unsupportedBackend` the `ValueError` for an
unrecognized backend string, `invalidConfiguration` the failure while reading
the required `origin` option (missing key or unrecognized value). -/
inductive PropError where
  | invalidTimeInput
  | unsupportedBackend
  | invalidConfiguration
deriving DecidableEq, Inhabited

/-- A row of the raw ndarray returned by the internal analytic backend:
`[orbit_id, epoch_mjd, x, y, z, vx, vy, vz]`, all floats. -/
structure URow where
  orbit_id : ℚ
  epoch_mjd : ℚ
  state : StateVector
deriving DecidableEq, Inhabited

/-- A row of the final DataFrame: integer-cast identifier, epoch (MJD) and the
six state components. -/
structure Row where
  orbit_id : ℤ
  epoch_mjd_tdb : ℚ
  state : StateVector
deriving DecidableEq, Inhabited

/-- A pandas DataFrame reduced to what the dispatcher observes: the ordered
list of column labels and the ordered rows. -/
structure PropTable where
  columns : List String
  rows : List Row
deriving DecidableEq, Inhabited

/-- The `backend_kwargs` dict: an association list from option names to
values. -/
abbrev Kwargs := List (String × String)

/-- Dict lookup (`d[k]` / the value `d.pop(k)` would return). -/
def kwLookup (m : Kwargs) (k : String) : Option String :=
  (m.find? (fun p => p.1 == k)).map Prod.snd

/-- Dict key removal, the mutation performed by a successful `d.pop(k)`. -/
def kwErase (m : Kwargs) (k : String) : Kwargs :=
  m.filter (fun p => p.1 != k)

/-- Dict assignment `d[k] = v`: update in place when the key exists, append
otherwise. -/
def kwSet (m : Kwargs) (k v : String) : Kwargs :=
  if m.any (fun p => p.1 == k) then
    m.map (fun p => if p.1 == k then (k, v) else p)
  else
    m ++ [(k, v)]

/-- The collaborator functions the dispatcher calls but whose numerics are
outside this source tree: the per-pair universal-variable solver, the per-pair
PYOORB solver, the epoch value PYOORB echoes in its epoch column, and the
per-row origin shifter (state, epoch as TDB MJD, origin in, origin out). -/
structure Backend where
  solve : StateVector → ℚ → ℚ → StateVector
  pySolve : StateVector → ℚ → ℚ → StateVector
  pyEcho : ℚ → ℚ → ℚ
  shift : StateVector → ℚ → String → String → StateVector

/-- Modelled from the spec: the Origin Shifter collaborator
(`thor.orbits.state.shiftOrbitsOrigin`, not under `src/`).  Its contract is
`shift(states, epochs, origin_in, origin_out) -> states'` with the same row
count, each row transformed at its own epoch. -/
def shiftOrbitsOrigin (B : Backend) (states : List StateVector) (epochs : List ℚ)
    (origin_in origin_out : String) : List StateVector :=
  (states.zip epochs).map (fun p => B.shift p.1 p.2 origin_in origin_out)

/-- Modelled from the spec: the Internal Analytic Backend
(`thor.orbits.propagate.universal.propagateUniversal`, not under `src/`).
It returns rows `[orbit_id, epoch_tdb_mjd, x..vz]`, one per (orbit, target
epoch) pair in orbit-major order, identifiers being the whole-number input
row indices. -/
def propagateUniversal (B : Backend) (orbits : List StateVector)
    (t0 t1 : List ℚ) : List URow :=
  (List.range orbits.length).flatMap (fun i =>
    t1.map (fun e =>
      { orbit_id := (i : ℚ), epoch_mjd := e,
        state := B.solve (orbits.getD i default) (t0.getD i 0) e }))

/-- Modelled from the spec: the External Ephemeris Backend adapter
(`thor.orbits.propagate.pyoorb.propagateOrbitsPYOORB`, not under `src/`).
It returns a DataFrame with an `epoch_mjd` column plus identifier and state
columns, one row per (orbit, target epoch) pair in orbit-major order. -/
def propagateOrbitsPYOORB (B : Backend) (orbits : List StateVector)
    (t0 t1 : List ℚ) : PropTable :=
  { columns := ["orbit_id", "epoch_mjd", "x", "y", "z", "vx", "vy", "vz"],
    rows := (List.range orbits.length).flatMap (fun i =>
      t1.map (fun e =>
        { orbit_id := (i : ℤ),
          epoch_mjd_tdb := B.pyEcho (t0.getD i 0) e,
          state := B.pySolve (orbits.getD i default) (t0.getD i 0) e })) }

/-- Modelled from the spec: `thor.orbits.handler._backendHandler` (not under
`src/`), which supplies default backend kwargs when the caller passes none and
rejects unrecognized backend identifiers. -/
def _backendHandler (backend : String) (_task : String) : Except PropError Kwargs :=
  if backend = "THOR" then Except.ok [("origin", "heliocenter")]
  else if backend = "PYOORB" then Except.ok []
  else Except.error PropError.unsupportedBackend

/-- Truncation toward zero, the effect of numpy's `.astype(int)` on a
whole-number float. -/
def truncInt (q : ℚ) : ℤ :=
  Int.tdiv q.num (q.den : ℤ)

/-- The canonical 8-column schema of the returned DataFrame. -/
def canonicalColumns : List String :=
  ["orbit_id", "epoch_mjd_tdb", "x", "y", "z", "vx", "vy", "vz"]

/-- Assembly of the THOR-branch DataFrame from the raw backend ndarray,
including the `astype(int)` cast of the identifier column. -/
def mkThorTable (rows : List URow) : PropTable :=
  { columns := canonicalColumns,
    rows := rows.map (fun r =>
      { orbit_id := truncInt r.orbit_id, epoch_mjd_tdb := r.epoch_mjd,
        state := r.state }) }

/-- The TT-plus-offset epochs handed to PYOORB:
`t.tt.mjd + (t.tdb.mjd - t.tt.mjd)` for each entry (propagate.py lines
97-98). -/
def pyoorbInputEpochs (ts : List Epoch) : List ℚ :=
  ts.map (fun e => e.tt + (e.tdb - e.tt))

/-- The `backend == "THOR"` branch of `propagateOrbits`: pop the `origin`
option, shift to the barycenter when requested, run the internal backend,
shift each output row back at its own epoch, restore `origin`, and assemble
the DataFrame.  The returned kwargs is the final state of the (mutated)
dict. -/
def thorBranch (B : Backend) (orbits : List StateVector) (t0_tdb t1_tdb : List ℚ)
    (kw : Kwargs) : Except PropError PropTable × Kwargs :=
  match kwLookup kw "origin" with
  | none => (Except.error PropError.invalidConfiguration, kw)
  | some origin =>
    let kw1 := kwErase kw "origin"
    let orbitsE : Except PropError (List StateVector) :=
      if origin = "barycenter" then
        Except.ok (shiftOrbitsOrigin B orbits t0_tdb "heliocenter" "barycenter")
      else if origin = "heliocenter" then
        Except.ok orbits
      else
        Except.error PropError.invalidConfiguration
    match orbitsE with
    | Except.error e => (Except.error e, kw1)
    | Except.ok orbits_ =>
      let propagated := propagateUniversal B orbits_ t0_tdb t1_tdb
      let propagated2 :=
        if origin = "barycenter" then
          (propagated.zip (shiftOrbitsOrigin B (propagated.map URow.state)
              (propagated.map URow.epoch_mjd) "barycenter" "heliocenter")).map
            (fun p => { p.1 with state := p.2 })
        else propagated
      (Except.ok (mkThorTable propagated2), kwSet kw1 "origin" origin)

/-- The `backend == "PYOORB"` branch of `propagateOrbits`: correct the epochs
to TT plus the TDB-TT offset, force `time_scale` to TT, run PYOORB, rename the
epoch column and overwrite its values with the TDB `t1` values broadcast over
all orbits. -/
def pyoorbBranch (B : Backend) (orbits : List StateVector) (ts0 ts1 : List Epoch)
    (kw : Kwargs) : Except PropError PropTable × Kwargs :=
  let t0_tt := pyoorbInputEpochs ts0
  let t1_tt := pyoorbInputEpochs ts1
  let kw1 := kwSet kw "time_scale" "TT"
  let py := propagateOrbitsPYOORB B orbits t0_tt t1_tt
  let renamed := py.columns.map (fun c => if c = "epoch_mjd" then "epoch_mjd_tdb" else c)
  let newEpochs := (List.replicate orbits.length (ts1.map Epoch.tdb)).flatten
  let rows2 := (py.rows.zip newEpochs).map (fun p => { p.1 with epoch_mjd_tdb := p.2 })
  (Except.ok { columns := renamed, rows := rows2 }, kw1)

/-- The caller's view of the kwargs dict after the call: when the caller
passed `None`, the handler-created dict is not the caller's object, so the
caller still sees `None`; otherwise the caller sees the mutated dict. -/
def callerView (caller : Option Kwargs) (kw : Kwargs) : Option Kwargs :=
  match caller with
  | none => none
  | some _ => some kw

/-- The dispatcher `propagateOrbits(orbits, t0, t1, backend, backend_kwargs)`.
The first component is the result (or the error raised); the second is the
caller-visible state of the `backend_kwargs` dict after the call, recording
its in-place mutation. -/
def propagateOrbits (B : Backend) (orbits : List StateVector) (t0 t1 : TimeArg)
    (backend : String) (backend_kwargs : Option Kwargs) :
    Except PropError PropTable × Option Kwargs :=
  match t0, t1 with
  | TimeArg.valid ts0, TimeArg.valid ts1 =>
    match (match backend_kwargs with
           | none => _backendHandler backend "propagate"
           | some m => Except.ok m) with
    | Except.error e => (Except.error e, backend_kwargs)
    | Except.ok kw =>
      if backend = "THOR" then
        let r := thorBranch B orbits (ts0.map Epoch.tdb) (ts1.map Epoch.tdb) kw
        (r.1, callerView backend_kwargs r.2)
      else if backend = "PYOORB" then
        let r := pyoorbBranch B orbits ts0 ts1 kw
        (r.1, callerView backend_kwargs r.2)
      else
        (Except.error PropError.unsupportedBackend, callerView backend_kwargs kw)
  | _, _ => (Except.error PropError.invalidTimeInput, backend_kwargs)

/-! Helper lemmas about the list combinators used by the backends. -/

/-- Flat-mapping a constant list over a range is flattening a replicate. -/
lemma range_flatMap_const {β : Type} (n : ℕ) (l : List β) :
    ((List.range n).flatMap (fun _ => l)) = (List.replicate n l).flatten := by
  induction n with
  | zero => rfl
  | succ n ih =>
    rw [List.range_succ, List.replicate_succ']
    simp [List.flatMap_append, ih]

/-- Length of the orbit-major (orbit, epoch) grid. -/
lemma length_range_flatMap_map {β γ : Type} (n : ℕ) (t1 : List β) (g : ℕ → β → γ) :
    ((List.range n).flatMap (fun i => t1.map (g i))).length = n * t1.length := by
  induction n with
  | zero => simp
  | succ n ih =>
    rw [List.range_succ]
    simp [List.flatMap_append, ih, Nat.succ_mul]

/-- Projecting the epoch out of each grid row recovers the broadcast target
epochs. -/
lemma map_snd_range_flatMap {β γ : Type} (n : ℕ) (t1 : List β) (g : ℕ → β → γ)
    (f : γ → β) (h : ∀ i e, f (g i e) = e) :
    ((List.range n).flatMap (fun i => t1.map (g i))).map f
      = (List.replicate n t1).flatten := by
  rw [List.map_flatMap]
  have hin : ∀ i, (t1.map (g i)).map f = t1 := by
    intro i
    rw [List.map_map]
    have : (f ∘ g i) = id := by
      funext e
      exact h i e
    rw [this, List.map_id]
  calc ((List.range n).flatMap fun i => (t1.map (g i)).map f)
      = (List.range n).flatMap (fun _ => t1) := by
        apply List.flatMap_congr
        intro i _
        exact hin i
    _ = (List.replicate n t1).flatten := range_flatMap_const n t1

/-- Projecting a per-orbit constant out of each grid row yields that constant
repeated once per target epoch, in orbit order. -/
lemma map_fst_range_flatMap {β γ δ : Type} (n : ℕ) (t1 : List β) (g : ℕ → β → γ)
    (f : γ → δ) (v : ℕ → δ) (h : ∀ i e, f (g i e) = v i) :
    ((List.range n).flatMap (fun i => t1.map (g i))).map f
      = ((List.range n).map (fun i => List.replicate t1.length (v i))).flatten := by
  rw [List.map_flatMap, ← List.flatMap_def]
  apply List.flatMap_congr
  intro i _
  rw [List.map_map]
  have : (f ∘ g i) = (fun _ => v i) := by
    funext e
    exact h i e
  rw [this, List.map_const']

/-- Length of a flattened replicate. -/
lemma length_flatten_replicate {β : Type} (n : ℕ) (l : List β) :
    ((List.replicate n l).flatten).length = n * l.length := by
  induction n with
  | zero => simp
  | succ n ih => simp [List.replicate_succ, ih, Nat.succ_mul, Nat.add_comm]

/-! Column-level facts about the two modelled backends and the assembly
steps. -/

/-- The epoch column of the internal backend output is the broadcast of the
target epochs over the orbits. -/
lemma propagateUniversal_epoch_col (B : Backend) (orbits : List StateVector)
    (t0 t1 : List ℚ) :
    (propagateUniversal B orbits t0 t1).map URow.epoch_mjd
      = (List.replicate orbits.length t1).flatten := by
  unfold propagateUniversal
  exact map_snd_range_flatMap _ _ _ _ (fun i e => rfl)

/-- The identifier column of the internal backend output is each row index
repeated once per target epoch, in orbit-major order. -/
lemma propagateUniversal_id_col (B : Backend) (orbits : List StateVector)
    (t0 t1 : List ℚ) :
    (propagateUniversal B orbits t0 t1).map URow.orbit_id
      = ((List.range orbits.length).map
          (fun (i : ℕ) => List.replicate t1.length ((i : ℚ)))).flatten := by
  unfold propagateUniversal
  exact map_fst_range_flatMap _ _ _ _ _ (fun i e => rfl)

/-- Row count of the internal backend output. -/
lemma propagateUniversal_length (B : Backend) (orbits : List StateVector)
    (t0 t1 : List ℚ) :
    (propagateUniversal B orbits t0 t1).length = orbits.length * t1.length := by
  unfold propagateUniversal
  exact length_range_flatMap_map _ _ _

/-- The identifier column of the PYOORB adapter output. -/
lemma propagateOrbitsPYOORB_id_col (B : Backend) (orbits : List StateVector)
    (t0 t1 : List ℚ) :
    (propagateOrbitsPYOORB B orbits t0 t1).rows.map Row.orbit_id
      = ((List.range orbits.length).map
          (fun (i : ℕ) => List.replicate t1.length ((i : ℤ)))).flatten := by
  unfold propagateOrbitsPYOORB
  exact map_fst_range_flatMap _ _ _ _ _ (fun i e => rfl)

/-- Row count of the PYOORB adapter output. -/
lemma propagateOrbitsPYOORB_length (B : Backend) (orbits : List StateVector)
    (t0 t1 : List ℚ) :
    (propagateOrbitsPYOORB B orbits t0 t1).rows.length
      = orbits.length * t1.length := by
  unfold propagateOrbitsPYOORB
  exact length_range_flatMap_map _ _ _

/-- Length of the batch origin shift. -/
lemma shiftOrbitsOrigin_length (B : Backend) (states : List StateVector)
    (epochs : List ℚ) (oi oo : String) :
    (shiftOrbitsOrigin B states epochs oi oo).length
      = min states.length epochs.length := by
  simp [shiftOrbitsOrigin]

/-- The slice assignment that shifts every output row back at its own epoch is
a per-row map over the backend output. -/
lemma backshift_rows (B : Backend) (l : List URow) (oi oo : String) :
    (l.zip (shiftOrbitsOrigin B (l.map URow.state) (l.map URow.epoch_mjd) oi oo)).map
        (fun p => { p.1 with state := p.2 })
      = l.map (fun r => { r with state := B.shift r.state r.epoch_mjd oi oo }) := by
  induction l with
  | nil => rfl
  | cons a l ih =>
    simpa [shiftOrbitsOrigin] using ih

/-- Column projections through the DataFrame assembly step. -/
lemma mkThorTable_epoch_col (rows : List URow) :
    (mkThorTable rows).rows.map Row.epoch_mjd_tdb = rows.map URow.epoch_mjd := by
  simp [mkThorTable, List.map_map]

/-- Identifier column through the DataFrame assembly step. -/
lemma mkThorTable_id_col (rows : List URow) :
    (mkThorTable rows).rows.map Row.orbit_id
      = (rows.map URow.orbit_id).map truncInt := by
  simp [mkThorTable, List.map_map]

/-- State column through the DataFrame assembly step. -/
lemma mkThorTable_state_col (rows : List URow) :
    (mkThorTable rows).rows.map Row.state = rows.map URow.state := by
  simp [mkThorTable, List.map_map]

/-- Row count through the DataFrame assembly step. -/
lemma mkThorTable_length (rows : List URow) :
    (mkThorTable rows).rows.length = rows.length := by
  simp [mkThorTable]

/-- The integer cast of a whole-number identifier. -/
lemma truncInt_natCast (i : ℕ) : truncInt ((i : ℕ) : ℚ) = (i : ℤ) := by
  simp [truncInt]

/-- Overwriting the epoch column leaves the identifiers unchanged. -/
lemma overwrite_id_col (l : List Row) (es : List ℚ) (h : l.length = es.length) :
    ((l.zip es).map (fun p => { p.1 with epoch_mjd_tdb := p.2 })).map Row.orbit_id
      = l.map Row.orbit_id := by
  induction l generalizing es with
  | nil => rfl
  | cons a l ih =>
    cases es with
    | nil => simp at h
    | cons e es =>
      simp only [List.length_cons, Nat.succ.injEq] at h
      simp [ih es h]

/-- Overwriting the epoch column installs exactly the new values. -/
lemma overwrite_epoch_col (l : List Row) (es : List ℚ) (h : l.length = es.length) :
    ((l.zip es).map (fun p => { p.1 with epoch_mjd_tdb := p.2 })).map Row.epoch_mjd_tdb
      = es := by
  induction l generalizing es with
  | nil =>
    cases es with
    | nil => rfl
    | cons e es => simp at h
  | cons a l ih =>
    cases es with
    | nil => simp at h
    | cons e es =>
      simp only [List.length_cons, Nat.succ.injEq] at h
      simp [ih es h]

/-- Overwriting the epoch column preserves the row count. -/
lemma overwrite_length (l : List Row) (es : List ℚ) (h : l.length = es.length) :
    ((l.zip es).map (fun p => { p.1 with epoch_mjd_tdb := p.2 })).length = l.length := by
  simp [List.length_zip, h]

/-! Lemmas about the kwargs dict operations. -/

/-- After `pop`, the key is gone: no remaining entry matches it. -/
lemma kwErase_not_mem (m : Kwargs) (k : String) :
    ∀ p ∈ kwErase m k, (p.1 == k) = false := by
  intro p hp
  have := List.of_mem_filter hp
  simpa using this

/-- Looking up a popped key fails. -/
lemma kwLookup_kwErase (m : Kwargs) (k : String) :
    kwLookup (kwErase m k) k = none := by
  unfold kwLookup
  rw [List.find?_eq_none.mpr]
  · rfl
  · intro p hp
    simp [kwErase_not_mem m k p hp]

/-- Re-inserting a popped key appends it. -/
lemma kwSet_kwErase_eq_append (m : Kwargs) (k v : String) :
    kwSet (kwErase m k) k v = kwErase m k ++ [(k, v)] := by
  unfold kwSet
  rw [if_neg]
  intro h
  rcases List.any_eq_true.mp h with ⟨p, hp, hk⟩
  rw [kwErase_not_mem m k p hp] at hk
  exact Bool.false_ne_true hk

/-- Looking up a key just restored after a pop yields the restored value. -/
lemma kwLookup_kwSet_kwErase (m : Kwargs) (k v : String) :
    kwLookup (kwSet (kwErase m k) k v) k = some v := by
  rw [kwSet_kwErase_eq_append]
  unfold kwLookup
  rw [List.find?_append]
  have h1 : (kwErase m k).find? (fun p => p.1 == k) = none := by
    have := kwLookup_kwErase m k
    unfold kwLookup at this
    cases hf : (kwErase m k).find? (fun p => p.1 == k) with
    | none => rfl
    | some p => rw [hf] at this; simp at this
  rw [h1]
  simp

/-! Unfolding lemmas for the two dispatcher branches. -/

/-- The THOR branch on a kwargs dict whose origin is `heliocenter`. -/
lemma thorBranch_ok_helio (B : Backend) (orbits : List StateVector)
    (t0 t1 : List ℚ) (kw : Kwargs)
    (h : kwLookup kw "origin" = some "heliocenter") :
    thorBranch B orbits t0 t1 kw
      = (Except.ok (mkThorTable (propagateUniversal B orbits t0 t1)),
         kwSet (kwErase kw "origin") "origin" "heliocenter") := by
  unfold thorBranch
  rw [h]
  simp

/-- The THOR branch on a kwargs dict whose origin is `barycenter`: the input
orbits are shifted heliocenter to barycenter at their own `t0` entries before
propagation, and every output row's state is shifted back at that row's own
epoch taken from the epoch column. -/
lemma thorBranch_ok_bary (B : Backend) (orbits : List StateVector)
    (t0 t1 : List ℚ) (kw : Kwargs)
    (h : kwLookup kw "origin" = some "barycenter") :
    thorBranch B orbits t0 t1 kw
      = (Except.ok (mkThorTable
          ((propagateUniversal B
              (shiftOrbitsOrigin B orbits t0 "heliocenter" "barycenter") t0 t1).map
            (fun r => { r with
              state := B.shift r.state r.epoch_mjd "barycenter" "heliocenter" }))),
         kwSet (kwErase kw "origin") "origin" "barycenter") := by
  unfold thorBranch
  rw [h]
  simp [backshift_rows]

/-- The THOR branch when the kwargs dict has no origin key: the `pop` raises
and the dict is left unchanged. -/
lemma thorBranch_err_missing (B : Backend) (orbits : List StateVector)
    (t0 t1 : List ℚ) (kw : Kwargs)
    (h : kwLookup kw "origin" = none) :
    thorBranch B orbits t0 t1 kw
      = (Except.error PropError.invalidConfiguration, kw) := by
  unfold thorBranch
  rw [h]

/-- The THOR branch on an unrecognized origin value: the error is raised after
the pop, so the key stays removed. -/
lemma thorBranch_err_bad (B : Backend) (orbits : List StateVector)
    (t0 t1 : List ℚ) (kw : Kwargs) (v : String)
    (h : kwLookup kw "origin" = some v)
    (h1 : v ≠ "barycenter") (h2 : v ≠ "heliocenter") :
    thorBranch B orbits t0 t1 kw
      = (Except.error PropError.invalidConfiguration, kwErase kw "origin") := by
  unfold thorBranch
  rw [h]
  simp [h1, h2]

/-- Dispatch to the THOR branch with caller-supplied kwargs. -/
lemma propagateOrbits_thor_some (B : Backend) (orbits : List StateVector)
    (ts0 ts1 : List Epoch) (m : Kwargs) :
    propagateOrbits B orbits (TimeArg.valid ts0) (TimeArg.valid ts1) "THOR" (some m)
      = ((thorBranch B orbits (ts0.map Epoch.tdb) (ts1.map Epoch.tdb) m).1,
         some (thorBranch B orbits (ts0.map Epoch.tdb) (ts1.map Epoch.tdb) m).2) :=
  rfl

/-- Dispatch to the THOR branch with handler-supplied kwargs. -/
lemma propagateOrbits_thor_none (B : Backend) (orbits : List StateVector)
    (ts0 ts1 : List Epoch) :
    propagateOrbits B orbits (TimeArg.valid ts0) (TimeArg.valid ts1) "THOR" none
      = ((thorBranch B orbits (ts0.map Epoch.tdb) (ts1.map Epoch.tdb)
            [("origin", "heliocenter")]).1, none) :=
  rfl

/-- Dispatch to the PYOORB branch with caller-supplied kwargs. -/
lemma propagateOrbits_pyoorb_some (B : Backend) (orbits : List StateVector)
    (ts0 ts1 : List Epoch) (m : Kwargs) :
    propagateOrbits B orbits (TimeArg.valid ts0) (TimeArg.valid ts1) "PYOORB" (some m)
      = ((pyoorbBranch B orbits ts0 ts1 m).1,
         some (pyoorbBranch B orbits ts0 ts1 m).2) :=
  rfl

/-- Dispatch to the PYOORB branch with handler-supplied kwargs. -/
lemma propagateOrbits_pyoorb_none (B : Backend) (orbits : List StateVector)
    (ts0 ts1 : List Epoch) :
    propagateOrbits B orbits (TimeArg.valid ts0) (TimeArg.valid ts1) "PYOORB" none
      = ((pyoorbBranch B orbits ts0 ts1 []).1, none) :=
  rfl

/-- Shape of the PYOORB branch result. -/
lemma pyoorbBranch_eq (B : Backend) (orbits : List StateVector)
    (ts0 ts1 : List Epoch) (kw : Kwargs) :
    pyoorbBranch B orbits ts0 ts1 kw
      = (Except.ok
          { columns := (propagateOrbitsPYOORB B orbits (pyoorbInputEpochs ts0)
              (pyoorbInputEpochs ts1)).columns.map
                (fun c => if c = "epoch_mjd" then "epoch_mjd_tdb" else c),
            rows := ((propagateOrbitsPYOORB B orbits (pyoorbInputEpochs ts0)
              (pyoorbInputEpochs ts1)).rows.zip
                ((List.replicate orbits.length (ts1.map Epoch.tdb)).flatten)).map
              (fun p => { p.1 with epoch_mjd_tdb := p.2 }) },
         kwSet kw "time_scale" "TT") :=
  rfl

/-- The table assembled by the PYOORB branch (independent of the kwargs
dict). -/
def pyoorbTable (B : Backend) (orbits : List StateVector) (ts0 ts1 : List Epoch) :
    PropTable :=
  { columns := (propagateOrbitsPYOORB B orbits (pyoorbInputEpochs ts0)
      (pyoorbInputEpochs ts1)).columns.map
        (fun c => if c = "epoch_mjd" then "epoch_mjd_tdb" else c),
    rows := ((propagateOrbitsPYOORB B orbits (pyoorbInputEpochs ts0)
      (pyoorbInputEpochs ts1)).rows.zip
        ((List.replicate orbits.length (ts1.map Epoch.tdb)).flatten)).map
      (fun p => { p.1 with epoch_mjd_tdb := p.2 }) }

/-- The PYOORB branch always succeeds with the assembled table. -/
lemma pyoorbBranch_fst (B : Backend) (orbits : List StateVector)
    (ts0 ts1 : List Epoch) (kw : Kwargs) :
    (pyoorbBranch B orbits ts0 ts1 kw).1
      = Except.ok (pyoorbTable B orbits ts0 ts1) :=
  rfl

/-- A successful THOR-branch call produced one of the two origin paths. -/
lemma thorBranch_ok_cases (B : Backend) (orbits : List StateVector)
    (t0 t1 : List ℚ) (kw : Kwargs) (tbl : PropTable)
    (hok : (thorBranch B orbits t0 t1 kw).1 = Except.ok tbl) :
    tbl = mkThorTable (propagateUniversal B orbits t0 t1)
    ∨ tbl = mkThorTable
        ((propagateUniversal B
            (shiftOrbitsOrigin B orbits t0 "heliocenter" "barycenter") t0 t1).map
          (fun r => { r with
            state := B.shift r.state r.epoch_mjd "barycenter" "heliocenter" })) := by
  cases hlk : kwLookup kw "origin" with
  | none =>
    rw [thorBranch_err_missing _ _ _ _ _ hlk] at hok
    simp at hok
  | some v =>
    by_cases hb : v = "barycenter"
    · subst hb
      rw [thorBranch_ok_bary _ _ _ _ _ hlk] at hok
      simp at hok
      exact Or.inr hok.symm
    · by_cases hh : v = "heliocenter"
      · subst hh
        rw [thorBranch_ok_helio _ _ _ _ _ hlk] at hok
        simp at hok
        exact Or.inl hok.symm
      · rw [thorBranch_err_bad _ _ _ _ _ v hlk hb hh] at hok
        simp at hok

/-- A successful dispatcher call with the THOR backend produced one of the two
origin paths, whether the kwargs came from the caller or the handler. -/
lemma propagateOrbits_thor_ok (B : Backend) (orbits : List StateVector)
    (ts0 ts1 : List Epoch) (kwargs : Option Kwargs) (tbl : PropTable)
    (hok : (propagateOrbits B orbits (TimeArg.valid ts0) (TimeArg.valid ts1)
              "THOR" kwargs).1 = Except.ok tbl) :
    tbl = mkThorTable
        (propagateUniversal B orbits (ts0.map Epoch.tdb) (ts1.map Epoch.tdb))
    ∨ tbl = mkThorTable
        ((propagateUniversal B
            (shiftOrbitsOrigin B orbits (ts0.map Epoch.tdb) "heliocenter" "barycenter")
            (ts0.map Epoch.tdb) (ts1.map Epoch.tdb)).map
          (fun r => { r with
            state := B.shift r.state r.epoch_mjd "barycenter" "heliocenter" })) := by
  cases kwargs with
  | none =>
    rw [propagateOrbits_thor_none] at hok
    exact thorBranch_ok_cases _ _ _ _ _ _ hok
  | some m =>
    rw [propagateOrbits_thor_some] at hok
    exact thorBranch_ok_cases _ _ _ _ _ _ hok

/-- A successful dispatcher call with the PYOORB backend produced the
assembled PYOORB table. -/
lemma propagateOrbits_pyoorb_ok (B : Backend) (orbits : List StateVector)
    (ts0 ts1 : List Epoch) (kwargs : Option Kwargs) (tbl : PropTable)
    (hok : (propagateOrbits B orbits (TimeArg.valid ts0) (TimeArg.valid ts1)
              "PYOORB" kwargs).1 = Except.ok tbl) :
    tbl = pyoorbTable B orbits ts0 ts1 := by
  cases kwargs with
  | none =>
    rw [propagateOrbits_pyoorb_none, pyoorbBranch_fst] at hok
    simpa using hok.symm
  | some m =>
    rw [propagateOrbits_pyoorb_some] at hok
    rw [pyoorbBranch_fst] at hok
    simpa using hok.symm

/-- The TT-correction step keeps the number of epochs. -/
lemma pyoorbInputEpochs_length (ts : List Epoch) :
    (pyoorbInputEpochs ts).length = ts.length := by
  simp [pyoorbInputEpochs]

/-- Columns of the assembled PYOORB table are the canonical ones. -/
lemma pyoorbTable_columns (B : Backend) (orbits : List StateVector)
    (ts0 ts1 : List Epoch) :
    (pyoorbTable B orbits ts0 ts1).columns = canonicalColumns :=
  rfl

/-- Epoch column of the assembled PYOORB table: the overwrite installs the
broadcast TDB target epochs. -/
lemma pyoorbTable_epoch_col (B : Backend) (orbits : List StateVector)
    (ts0 ts1 : List Epoch) :
    (pyoorbTable B orbits ts0 ts1).rows.map Row.epoch_mjd_tdb
      = (List.replicate orbits.length (ts1.map Epoch.tdb)).flatten := by
  unfold pyoorbTable
  apply overwrite_epoch_col
  simp [propagateOrbitsPYOORB_length, length_flatten_replicate,
    pyoorbInputEpochs_length]

/-- Identifier column of the assembled PYOORB table. -/
lemma pyoorbTable_id_col (B : Backend) (orbits : List StateVector)
    (ts0 ts1 : List Epoch) :
    (pyoorbTable B orbits ts0 ts1).rows.map Row.orbit_id
      = ((List.range orbits.length).map
          (fun (i : ℕ) => List.replicate ts1.length ((i : ℤ)))).flatten := by
  unfold pyoorbTable
  rw [overwrite_id_col, propagateOrbitsPYOORB_id_col]
  · rw [pyoorbInputEpochs_length]
  · simp [propagateOrbitsPYOORB_length, length_flatten_replicate,
      pyoorbInputEpochs_length]

/-- Row count of the assembled PYOORB table. -/
lemma pyoorbTable_length (B : Backend) (orbits : List StateVector)
    (ts0 ts1 : List Epoch) :
    (pyoorbTable B orbits ts0 ts1).rows.length = orbits.length * ts1.length := by
  unfold pyoorbTable
  rw [overwrite_length, propagateOrbitsPYOORB_length, pyoorbInputEpochs_length]
  simp [propagateOrbitsPYOORB_length, length_flatten_replicate,
    pyoorbInputEpochs_length]

/-- Replacing only the state component leaves the epoch column unchanged. -/
lemma stateMap_epoch_col (l : List URow) (g : URow → StateVector) :
    (l.map (fun r => { r with state := g r })).map URow.epoch_mjd
      = l.map URow.epoch_mjd := by
  simp [List.map_map]

/-- Replacing only the state component leaves the identifier column
unchanged. -/
lemma stateMap_id_col (l : List URow) (g : URow → StateVector) :
    (l.map (fun r => { r with state := g r })).map URow.orbit_id
      = l.map URow.orbit_id := by
  simp [List.map_map]

/-- Replacing only the state component keeps the row count. -/
lemma stateMap_length (l : List URow) (g : URow → StateVector) :
    (l.map (fun r => { r with state := g r })).length = l.length := by
  simp

/-- Integer-casting the whole-number identifier grid. -/
lemma trunc_id_grid (n m : ℕ) :
    ((((List.range n).map (fun (i : ℕ) => List.replicate m ((i : ℚ)))).flatten).map
        truncInt)
      = ((List.range n).map (fun (i : ℕ) => List.replicate m ((i : ℤ)))).flatten := by
  rw [List.map_flatten, List.map_map]
  have h : ((List.map truncInt) ∘ (fun (i : ℕ) => List.replicate m ((i : ℚ))))
      = (fun (i : ℕ) => List.replicate m ((i : ℤ))) := by
    funext i
    simp [List.map_replicate, truncInt_natCast]
  rw [h]

/-! The claims. -/

/-- C1: for every valid request (well-formed t0 of length N, t1 of length M,
recognized backend, options on which the call succeeds), the epoch column of
the returned table is exactly the TDB MJD values of the t1 entries, broadcast
over the orbits in orbit-major order, so the value at every row equals the
TDB MJD of that row's target t1 entry — for the THOR backend as well as the
PYOORB backend. -/
theorem propagate_epoch_column_tdb (B : Backend) (orbits : List StateVector)
    (ts0 ts1 : List Epoch) (backend : String) (kwargs : Option Kwargs)
    (tbl : PropTable)
    (hlen : ts0.length = orbits.length) (hn : 0 < orbits.length)
    (hb : backend = "THOR" ∨ backend = "PYOORB")
    (hok : (propagateOrbits B orbits (TimeArg.valid ts0) (TimeArg.valid ts1)
              backend kwargs).1 = Except.ok tbl) :
    tbl.rows.map Row.epoch_mjd_tdb
      = (List.replicate orbits.length (ts1.map Epoch.tdb)).flatten := by
  rcases hb with hb | hb <;> subst hb
  · rcases propagateOrbits_thor_ok B orbits ts0 ts1 kwargs tbl hok with h | h <;>
      subst h
    · rw [mkThorTable_epoch_col, propagateUniversal_epoch_col]
    · rw [mkThorTable_epoch_col, stateMap_epoch_col, propagateUniversal_epoch_col,
        shiftOrbitsOrigin_length, List.length_map, hlen, Nat.min_self]
  · rw [propagateOrbits_pyoorb_ok B orbits ts0 ts1 kwargs tbl hok]
    exact pyoorbTable_epoch_col B orbits ts0 ts1

/-- C2: for every valid request with N input orbits and M target epochs, the
returned table has exactly N times M rows, and its identifier column is
exactly the input identifiers (the orbit row indices), each repeated M
consecutive times in orbit-major order, for both backends. -/
theorem propagate_rowcount_orbit_ids (B : Backend) (orbits : List StateVector)
    (ts0 ts1 : List Epoch) (backend : String) (kwargs : Option Kwargs)
    (tbl : PropTable)
    (hlen : ts0.length = orbits.length) (hn : 0 < orbits.length)
    (hb : backend = "THOR" ∨ backend = "PYOORB")
    (hok : (propagateOrbits B orbits (TimeArg.valid ts0) (TimeArg.valid ts1)
              backend kwargs).1 = Except.ok tbl) :
    tbl.rows.length = orbits.length * ts1.length
    ∧ tbl.rows.map Row.orbit_id
        = ((List.range orbits.length).map
            (fun (i : ℕ) => List.replicate ts1.length ((i : ℤ)))).flatten := by
  rcases hb with hb | hb <;> subst hb
  · rcases propagateOrbits_thor_ok B orbits ts0 ts1 kwargs tbl hok with h | h <;>
      subst h
    · constructor
      · rw [mkThorTable_length, propagateUniversal_length, List.length_map]
      · rw [mkThorTable_id_col, propagateUniversal_id_col, List.length_map,
          trunc_id_grid]
    · constructor
      · rw [mkThorTable_length, stateMap_length, propagateUniversal_length,
          shiftOrbitsOrigin_length, List.length_map, List.length_map, hlen,
          Nat.min_self]
      · rw [mkThorTable_id_col, stateMap_id_col, propagateUniversal_id_col,
          shiftOrbitsOrigin_length, List.length_map, List.length_map, hlen,
          Nat.min_self, trunc_id_grid]
  · rw [propagateOrbits_pyoorb_ok B orbits ts0 ts1 kwargs tbl hok]
    exact ⟨pyoorbTable_length B orbits ts0 ts1, pyoorbTable_id_col B orbits ts0 ts1⟩

/-- C3: for every valid request, the returned table carries the same
canonical schema regardless of backend: the 8 columns orbit_id,
epoch_mjd_tdb, x, y, z, vx, vy, vz in that fixed order (with the identifier
column integer-typed and the rest rationals standing for float64, which in
this embedding is forced by the shared Row type of both paths). -/
theorem propagate_canonical_columns (B : Backend) (orbits : List StateVector)
    (ts0 ts1 : List Epoch) (backend : String) (kwargs : Option Kwargs)
    (tbl : PropTable)
    (hlen : ts0.length = orbits.length) (hn : 0 < orbits.length)
    (hb : backend = "THOR" ∨ backend = "PYOORB")
    (hok : (propagateOrbits B orbits (TimeArg.valid ts0) (TimeArg.valid ts1)
              backend kwargs).1 = Except.ok tbl) :
    tbl.columns = canonicalColumns := by
  rcases hb with hb | hb <;> subst hb
  · rcases propagateOrbits_thor_ok B orbits ts0 ts1 kwargs tbl hok with h | h <;>
      subst h <;> rfl
  · rw [propagateOrbits_pyoorb_ok B orbits ts0 ts1 kwargs tbl hok]
    exact pyoorbTable_columns B orbits ts0 ts1

/-- C6: for every epoch, the corrected epoch handed to PYOORB, computed as the
TT MJD plus the offset (TDB MJD minus TT MJD), is numerically equal to the TDB
MJD; this holds entrywise for any time collection, hence for both t0 and
t1. -/
theorem pyoorb_corrected_epoch_eq_tdb (ts : List Epoch) :
    pyoorbInputEpochs ts = ts.map Epoch.tdb := by
  unfold pyoorbInputEpochs
  congr 1
  funext e
  ring

/-- C7: for every call with well-formed time collections whose backend string
is neither of the two recognized identifiers, the dispatcher fails with the
unsupported-backend error and returns no table, for any kwargs value
(including the None default). -/
theorem propagate_unsupported_backend (B : Backend) (orbits : List StateVector)
    (ts0 ts1 : List Epoch) (backend : String) (kwargs : Option Kwargs)
    (h1 : backend ≠ "THOR") (h2 : backend ≠ "PYOORB") :
    (propagateOrbits B orbits (TimeArg.valid ts0) (TimeArg.valid ts1)
        backend kwargs).1 = Except.error PropError.unsupportedBackend := by
  cases kwargs with
  | none => simp [propagateOrbits, _backendHandler, h1, h2]
  | some m => simp [propagateOrbits, h1, h2]

/-- C4: for every valid request with the THOR backend and origin barycenter,
the dispatcher shifts the input orbits heliocenter to barycenter at their t0
epochs before invoking the backend, and afterwards shifts the state of every
output row barycenter to heliocenter using that row's own epoch taken from
the row's epoch column, over the full result. -/
theorem propagate_barycenter_shift (B : Backend) (orbits : List StateVector)
    (ts0 ts1 : List Epoch) (m : Kwargs) (tbl : PropTable)
    (hlk : kwLookup m "origin" = some "barycenter")
    (hok : (propagateOrbits B orbits (TimeArg.valid ts0) (TimeArg.valid ts1)
              "THOR" (some m)).1 = Except.ok tbl) :
    tbl = mkThorTable
        ((propagateUniversal B
            (shiftOrbitsOrigin B orbits (ts0.map Epoch.tdb) "heliocenter" "barycenter")
            (ts0.map Epoch.tdb) (ts1.map Epoch.tdb)).map
          (fun r => { r with
            state := B.shift r.state r.epoch_mjd "barycenter" "heliocenter" })) := by
  rw [propagateOrbits_thor_some, thorBranch_ok_bary _ _ _ _ _ hlk] at hok
  simpa using hok.symm

/-- C5: for every call with the THOR backend and a caller-supplied kwargs
dict that returns successfully, the dict afterwards maps the origin key to
exactly the value that was passed in, even though the key was popped during
execution. -/
theorem propagate_origin_restored (B : Backend) (orbits : List StateVector)
    (t0 t1 : TimeArg) (m : Kwargs) (tbl : PropTable) (kw1 : Kwargs)
    (hok : (propagateOrbits B orbits t0 t1 "THOR" (some m)).1 = Except.ok tbl)
    (hkw : (propagateOrbits B orbits t0 t1 "THOR" (some m)).2 = some kw1) :
    kwLookup kw1 "origin" = kwLookup m "origin" := by
  cases t0 with
  | invalid => cases t1 <;> simp [propagateOrbits] at hok
  | valid ts0 =>
    cases t1 with
    | invalid => simp [propagateOrbits] at hok
    | valid ts1 =>
      rw [propagateOrbits_thor_some] at hok hkw
      cases hlk : kwLookup m "origin" with
      | none =>
        rw [thorBranch_err_missing _ _ _ _ _ hlk] at hok
        simp at hok
      | some v =>
        by_cases hb : v = "barycenter"
        · subst hb
          rw [thorBranch_ok_bary _ _ _ _ _ hlk] at hkw
          simp at hkw
          rw [← hkw, kwLookup_kwSet_kwErase]
        · by_cases hh : v = "heliocenter"
          · subst hh
            rw [thorBranch_ok_helio _ _ _ _ _ hlk] at hkw
            simp at hkw
            rw [← hkw, kwLookup_kwSet_kwErase]
          · rw [thorBranch_err_bad _ _ _ _ _ v hlk hb hh] at hok
            simp at hok

/-- C8: for every call with the THOR backend, well-formed times and a
caller-supplied kwargs dict whose origin key is missing or bound to a value
other than heliocenter or barycenter, the dispatcher fails with the
invalid-configuration error and returns no table; the conclusion holds for
every collaborator bundle, so no backend propagation result is observed. -/
theorem propagate_invalid_origin_error (B : Backend) (orbits : List StateVector)
    (ts0 ts1 : List Epoch) (m : Kwargs)
    (h : ∀ v, kwLookup m "origin" = some v →
          v ≠ "heliocenter" ∧ v ≠ "barycenter") :
    (propagateOrbits B orbits (TimeArg.valid ts0) (TimeArg.valid ts1)
        "THOR" (some m)).1 = Except.error PropError.invalidConfiguration := by
  rw [propagateOrbits_thor_some]
  cases hlk : kwLookup m "origin" with
  | none => rw [thorBranch_err_missing _ _ _ _ _ hlk]
  | some v =>
    obtain ⟨h1, h2⟩ := h v hlk
    rw [thorBranch_err_bad _ _ _ _ _ v hlk h2 h1]

/-- C9: for every valid request with the THOR backend and origin heliocenter,
the output state columns equal those of a direct call to the internal
analytic backend on the unmodified input orbits with the TDB-converted t0 and
t1; the origin-shifting steps are a no-op on this path. -/
theorem propagate_heliocenter_refines_direct (B : Backend)
    (orbits : List StateVector) (ts0 ts1 : List Epoch) (m : Kwargs)
    (tbl : PropTable)
    (hlk : kwLookup m "origin" = some "heliocenter")
    (hok : (propagateOrbits B orbits (TimeArg.valid ts0) (TimeArg.valid ts1)
              "THOR" (some m)).1 = Except.ok tbl) :
    tbl.rows.map Row.state
      = (propagateUniversal B orbits (ts0.map Epoch.tdb)
          (ts1.map Epoch.tdb)).map URow.state := by
  rw [propagateOrbits_thor_some, thorBranch_ok_helio _ _ _ _ _ hlk] at hok
  simp at hok
  rw [← hok, mkThorTable_state_col]

/-- C10: for every call with the THOR backend and a caller-supplied kwargs
dict whose origin value is recognized by neither origin, the call fails and
leaves the dict mutated: the origin key has been popped and is not
restored. -/
theorem propagate_invalid_origin_mutates_kwargs (B : Backend)
    (orbits : List StateVector) (ts0 ts1 : List Epoch) (m : Kwargs) (v : String)
    (hlk : kwLookup m "origin" = some v)
    (h1 : v ≠ "heliocenter") (h2 : v ≠ "barycenter") :
    (propagateOrbits B orbits (TimeArg.valid ts0) (TimeArg.valid ts1)
        "THOR" (some m)).2 = some (kwErase m "origin")
    ∧ kwLookup (kwErase m "origin") "origin" = none := by
  constructor
  · rw [propagateOrbits_thor_some, thorBranch_err_bad _ _ _ _ _ v hlk h2 h1]
  · exact kwLookup_kwErase m "origin"

/-! Concrete fixtures used to instantiate the theorems. -/

/-- A concrete collaborator bundle. -/
def testBackend : Backend :=
  { solve := fun s _ _ => s,
    pySolve := fun s _ _ => s,
    pyEcho := fun _ e => e,
    shift := fun s _ _ _ => s }

/-- A concrete input orbit row. -/
def wOrbit : StateVector := ⟨1, 2, 3, 4, 5, 6⟩

/-- A concrete reference epoch with distinct TDB and TT renderings. -/
def wE0 : Epoch := ⟨59000, 59001⟩

/-- A first concrete target epoch. -/
def wE1 : Epoch := ⟨59002, 59003⟩

/-- A second concrete target epoch. -/
def wE2 : Epoch := ⟨59004, 59005⟩

/-- Caller kwargs selecting the heliocenter origin. -/
def wKwH : Kwargs := [("origin", "heliocenter")]

/-- Caller kwargs selecting the barycenter origin. -/
def wKwB : Kwargs := [("origin", "barycenter")]

/-- Caller kwargs with an unrecognized origin value. -/
def wKwX : Kwargs := [("origin", "bogus")]

/-- Concrete heliocenter-origin THOR call. -/
def wResH : Except PropError PropTable × Option Kwargs :=
  propagateOrbits testBackend [wOrbit] (TimeArg.valid [wE0])
    (TimeArg.valid [wE1, wE2]) "THOR" (some wKwH)

/-- The table the heliocenter call returned. -/
def wTblH : PropTable :=
  match wResH.1 with
  | Except.ok t => t
  | Except.error _ => default

/-- The kwargs dict the heliocenter call left behind. -/
def wKw1 : Kwargs := (wResH.2).getD []

/-- Concrete barycenter-origin THOR call. -/
def wResB : Except PropError PropTable × Option Kwargs :=
  propagateOrbits testBackend [wOrbit] (TimeArg.valid [wE0])
    (TimeArg.valid [wE1, wE2]) "THOR" (some wKwB)

/-- The table the barycenter call returned. -/
def wTblB : PropTable :=
  match wResB.1 with
  | Except.ok t => t
  | Except.error _ => default

/-- Concrete PYOORB call. -/
def wResP : Except PropError PropTable × Option Kwargs :=
  propagateOrbits testBackend [wOrbit] (TimeArg.valid [wE0])
    (TimeArg.valid [wE1, wE2]) "PYOORB" (some [])

/-- The table the PYOORB call returned. -/
def wTblP : PropTable :=
  match wResP.1 with
  | Except.ok t => t
  | Except.error _ => default

/-! Witnesses: each theorem with hypotheses applied at a concrete input. -/

/-- Witness for C1 at a one-orbit, two-epoch THOR call. -/
theorem propagate_epoch_column_tdb_witness :
    ([wE0] : List Epoch).length = ([wOrbit] : List StateVector).length
    ∧ 0 < ([wOrbit] : List StateVector).length
    ∧ ("THOR" = "THOR" ∨ "THOR" = "PYOORB")
    ∧ (propagateOrbits testBackend [wOrbit] (TimeArg.valid [wE0])
        (TimeArg.valid [wE1, wE2]) "THOR" (some wKwH)).1 = Except.ok wTblH
    ∧ wTblH.rows.map Row.epoch_mjd_tdb
        = (List.replicate ([wOrbit] : List StateVector).length
            ([wE1, wE2].map Epoch.tdb)).flatten :=
  ⟨rfl, Nat.zero_lt_one, Or.inl rfl, rfl,
   propagate_epoch_column_tdb testBackend [wOrbit] [wE0] [wE1, wE2] "THOR"
     (some wKwH) wTblH rfl Nat.zero_lt_one (Or.inl rfl) rfl⟩

/-- Witness for C2 at a one-orbit, two-epoch PYOORB call. -/
theorem propagate_rowcount_orbit_ids_witness :
    ([wE0] : List Epoch).length = ([wOrbit] : List StateVector).length
    ∧ 0 < ([wOrbit] : List StateVector).length
    ∧ ("PYOORB" = "THOR" ∨ "PYOORB" = "PYOORB")
    ∧ (propagateOrbits testBackend [wOrbit] (TimeArg.valid [wE0])
        (TimeArg.valid [wE1, wE2]) "PYOORB" (some [])).1 = Except.ok wTblP
    ∧ (wTblP.rows.length
        = ([wOrbit] : List StateVector).length * ([wE1, wE2] : List Epoch).length
      ∧ wTblP.rows.map Row.orbit_id
        = ((List.range ([wOrbit] : List StateVector).length).map
            (fun (i : ℕ) =>
              List.replicate ([wE1, wE2] : List Epoch).length ((i : ℤ)))).flatten) :=
  ⟨rfl, Nat.zero_lt_one, Or.inr rfl, rfl,
   propagate_rowcount_orbit_ids testBackend [wOrbit] [wE0] [wE1, wE2] "PYOORB"
     (some []) wTblP rfl Nat.zero_lt_one (Or.inr rfl) rfl⟩

/-- Witness for C3 at a one-orbit, two-epoch THOR call. -/
theorem propagate_canonical_columns_witness :
    ([wE0] : List Epoch).length = ([wOrbit] : List StateVector).length
    ∧ 0 < ([wOrbit] : List StateVector).length
    ∧ ("THOR" = "THOR" ∨ "THOR" = "PYOORB")
    ∧ (propagateOrbits testBackend [wOrbit] (TimeArg.valid [wE0])
        (TimeArg.valid [wE1, wE2]) "THOR" (some wKwH)).1 = Except.ok wTblH
    ∧ wTblH.columns = canonicalColumns :=
  ⟨rfl, Nat.zero_lt_one, Or.inl rfl, rfl,
   propagate_canonical_columns testBackend [wOrbit] [wE0] [wE1, wE2] "THOR"
     (some wKwH) wTblH rfl Nat.zero_lt_one (Or.inl rfl) rfl⟩

/-- Witness for C4 at a one-orbit, two-epoch barycenter THOR call. -/
theorem propagate_barycenter_shift_witness :
    kwLookup wKwB "origin" = some "barycenter"
    ∧ (propagateOrbits testBackend [wOrbit] (TimeArg.valid [wE0])
        (TimeArg.valid [wE1, wE2]) "THOR" (some wKwB)).1 = Except.ok wTblB
    ∧ wTblB = mkThorTable
        ((propagateUniversal testBackend
            (shiftOrbitsOrigin testBackend [wOrbit] ([wE0].map Epoch.tdb)
              "heliocenter" "barycenter")
            ([wE0].map Epoch.tdb) ([wE1, wE2].map Epoch.tdb)).map
          (fun r => { r with
            state := testBackend.shift r.state r.epoch_mjd
              "barycenter" "heliocenter" })) :=
  ⟨rfl, rfl,
   propagate_barycenter_shift testBackend [wOrbit] [wE0] [wE1, wE2] wKwB wTblB
     rfl rfl⟩

/-- Witness for C5 at the heliocenter THOR call. -/
theorem propagate_origin_restored_witness :
    (propagateOrbits testBackend [wOrbit] (TimeArg.valid [wE0])
        (TimeArg.valid [wE1, wE2]) "THOR" (some wKwH)).1 = Except.ok wTblH
    ∧ (propagateOrbits testBackend [wOrbit] (TimeArg.valid [wE0])
        (TimeArg.valid [wE1, wE2]) "THOR" (some wKwH)).2 = some wKw1
    ∧ kwLookup wKw1 "origin" = kwLookup wKwH "origin" :=
  ⟨rfl, rfl,
   propagate_origin_restored testBackend [wOrbit] (TimeArg.valid [wE0])
     (TimeArg.valid [wE1, wE2]) wKwH wTblH wKw1 rfl rfl⟩

/-- Witness for C7 at the backend string BOGUS. -/
theorem propagate_unsupported_backend_witness :
    ("BOGUS" : String) ≠ "THOR"
    ∧ ("BOGUS" : String) ≠ "PYOORB"
    ∧ (propagateOrbits testBackend [wOrbit] (TimeArg.valid [wE0])
        (TimeArg.valid [wE1, wE2]) "BOGUS" none).1
      = Except.error PropError.unsupportedBackend :=
  ⟨by decide, by decide,
   propagate_unsupported_backend testBackend [wOrbit] [wE0] [wE1, wE2] "BOGUS"
     none (by decide) (by decide)⟩

/-- Witness for C8 at an empty kwargs dict, whose origin key is missing. -/
theorem propagate_invalid_origin_error_witness :
    kwLookup ([] : Kwargs) "origin" = none
    ∧ (propagateOrbits testBackend [wOrbit] (TimeArg.valid [wE0])
        (TimeArg.valid [wE1, wE2]) "THOR" (some ([] : Kwargs))).1
      = Except.error PropError.invalidConfiguration :=
  ⟨rfl,
   propagate_invalid_origin_error testBackend [wOrbit] [wE0] [wE1, wE2] []
     (fun v hv => by simp [kwLookup] at hv)⟩

/-- Witness for C9 at the heliocenter THOR call. -/
theorem propagate_heliocenter_refines_direct_witness :
    kwLookup wKwH "origin" = some "heliocenter"
    ∧ (propagateOrbits testBackend [wOrbit] (TimeArg.valid [wE0])
        (TimeArg.valid [wE1, wE2]) "THOR" (some wKwH)).1 = Except.ok wTblH
    ∧ wTblH.rows.map Row.state
      = (propagateUniversal testBackend [wOrbit] ([wE0].map Epoch.tdb)
          ([wE1, wE2].map Epoch.tdb)).map URow.state :=
  ⟨rfl, rfl,
   propagate_heliocenter_refines_direct testBackend [wOrbit] [wE0] [wE1, wE2]
     wKwH wTblH rfl rfl⟩

/-- Witness for C10 at a kwargs dict binding origin to bogus. -/
theorem propagate_invalid_origin_mutates_kwargs_witness :
    kwLookup wKwX "origin" = some "bogus"
    ∧ ("bogus" : String) ≠ "heliocenter"
    ∧ ("bogus" : String) ≠ "barycenter"
    ∧ ((propagateOrbits testBackend [wOrbit] (TimeArg.valid [wE0])
          (TimeArg.valid [wE1, wE2]) "THOR" (some wKwX)).2
        = some (kwErase wKwX "origin")
      ∧ kwLookup (kwErase wKwX "origin") "origin" = none) :=
  ⟨rfl, by decide, by decide,
   propagate_invalid_origin_mutates_kwargs testBackend [wOrbit] [wE0] [wE1, wE2]
     wKwX "bogus" rfl (by decide) (by decide)⟩

end Thor
